import Mathlib

/-!
Shallow embedding of the CityGuardAlert incident pipeline.

The embedding covers, faithfully to the Python source:
  - `gemini.py`: `analyze_incident` (with its fallback verdict) and
    `filter_credible_sources` (with its permissive default), the two LLM
    calls being modelled by explicit outcome oracles;
  - `agents/notification_agent.py`: the per-incident body of
    `process_incidents` (credibility override, persistence gate, dispatch
    gate), `save_analyzed_incident` (24h-windowed dedup upsert),
    `send_notifications` (per-subscriber logging) and `get_eligible_users`
    (symmetric substring location match plus hardcoded severity floor);
  - `agents/data_agent.py`: `save_incident` (unbounded dedup) and
    `fetch_news_data` (keyword-limited, article-filtered extraction).

Floating-point scores are modelled as rationals, timestamps as integers
(seconds), the database as a list of rows, and every external effect
(LLM, email transport, news provider) as an explicit input.
-/

/-- Python `needle in hay` (substring containment), auxiliary: does `s`
start with `pat`? -/
def charsStartWith : List Char → List Char → Bool
  | _, [] => true
  | [], _ :: _ => false
  | h :: hs, n :: ns => h == n && charsStartWith hs ns

/-- Python `needle in hay` on character lists: `needle` occurs contiguously
in `hay` (the empty needle occurs everywhere, as in Python). -/
def charsContain (needle : List Char) : List Char → Bool
  | [] => charsStartWith [] needle
  | h :: hs => charsStartWith (h :: hs) needle || charsContain needle hs

/-- Python `needle in hay` on strings. -/
def strContains (hay needle : String) : Bool :=
  charsContain needle.data hay.data

/-- Python truthiness of an optional string field (`article.get('title')`):
false when the key is missing or the value is the empty string. -/
def truthy : Option String → Bool
  | none => false
  | some s => !s.isEmpty

/-- A normalized incident record as built by the extractor
(`incident_data` dicts in `data_agent.py` / `notification_agent.py`). -/
structure IncidentData where
  title : String
  description : String
  source : String
  location : String
  category : String
  url : Option String
  raw_data : Option String
deriving Repr, DecidableEq

/-- `gemini.IncidentAnalysis` (pydantic model): the structured verdict of
the classifier. -/
structure IncidentAnalysis where
  relevance_score : Rat
  severity : String
  category : String
  is_credible : Bool
  summary : String
deriving Repr, DecidableEq

/-- Observable outcomes of the structured-output LLM call inside
`analyze_incident`: a valid parsed verdict, an empty `response.text`
(raises `ValueError`), a malformed/schema-violating body (raises in
`json.loads` / model validation), or a transport error. -/
inductive AnalysisLLM where
  | valid (a : IncidentAnalysis)
  | empty
  | malformed
  | throws
deriving Repr, DecidableEq

/-- `gemini.analyze_incident`: returns the parsed verdict on success and on
any failure falls back to the default analysis built from the title and the
first 100 characters of the description. -/
def analyze_incident (llm : AnalysisLLM) (title description _source _location : String) :
    IncidentAnalysis :=
  match llm with
  | .valid a => a
  | _ =>
      { relevance_score := 1/2
        severity := "medium"
        category := "other"
        is_credible := true
        summary := title ++ ": " ++ description.take 100 ++ "..." }

/-- Observable outcomes of the free-text LLM call inside
`filter_credible_sources`: a response whose `.text` is `none` or a string,
or an exception. -/
inductive CredibilityLLM where
  | responds (text : Option String)
  | throws
deriving Repr, DecidableEq

/-- `gemini.filter_credible_sources`: lowercased, stripped response text
compared against "true"; a `None` text yields the empty string (hence
`false`); any exception defaults permissively to `true`. -/
def filter_credible_sources (llm : CredibilityLLM) (_content _source_url : String) : Bool :=
  match llm with
  | .responds none => "" == "true"
  | .responds (some t) => t.trim.toLower == "true"
  | .throws => true

/-- The credibility override inside `NotificationAgent.process_incidents`:
if the independent filter disagrees, force `is_credible := false` and halve
the relevance score; otherwise keep the primary verdict unchanged. -/
def effectiveAnalysis (analysis : IncidentAnalysis) (is_credible : Bool) : IncidentAnalysis :=
  if is_credible then analysis
  else { analysis with is_credible := false
                       relevance_score := analysis.relevance_score * (1/2) }

/-- The persistence gate of `process_incidents`:
`analysis.relevance_score >= 0.3 and analysis.is_credible`. -/
def storeGate (a : IncidentAnalysis) : Bool :=
  decide ((3:Rat)/10 ≤ a.relevance_score) && a.is_credible

/-- The dispatch gate of `process_incidents`:
`analysis.severity in ['high', 'critical'] and analysis.relevance_score >= 0.7`. -/
def dispatchGate (a : IncidentAnalysis) : Bool :=
  (a.severity == "high" || a.severity == "critical") && decide ((7:Rat)/10 ≤ a.relevance_score)

/-- What the body of `process_incidents` decides for one incident. -/
structure ProcessResult where
  effective : IncidentAnalysis
  saved : Bool
  dispatched : Bool
deriving Repr, DecidableEq

/-- The per-incident body of `NotificationAgent.process_incidents`:
classify, run the independent credibility filter, apply the override, then
gate persistence and (inside the persistence branch) gate notification
dispatch. -/
def processOne (aLLM : AnalysisLLM) (cLLM : CredibilityLLM) (d : IncidentData) : ProcessResult :=
  let analysis := analyze_incident aLLM d.title d.description d.source d.location
  let is_credible := filter_credible_sources cLLM d.description (d.url.getD "")
  let eff := effectiveAnalysis analysis is_credible
  if storeGate eff then
    { effective := eff, saved := true, dispatched := dispatchGate eff }
  else
    { effective := eff, saved := false, dispatched := false }

/-- `NotificationAgent.process_incidents` over a batch: each incident is
processed independently, with its own LLM outcomes. -/
def process_incidents (aLLM : IncidentData → AnalysisLLM) (cLLM : IncidentData → CredibilityLLM)
    (batch : List IncidentData) : List ProcessResult :=
  batch.map (fun d => processOne (aLLM d) (cLLM d) d)

/-- `models.AlertSubscription`: the stored per-subscriber preference row
(its `min_severity` field is never read by the matching logic). -/
structure AlertSubscription where
  location : String
  categories : Option String
  min_severity : String
  is_active : Bool
deriving Repr, DecidableEq

/-- `models.User` together with its subscription rows. -/
structure User where
  id : Nat
  location : String
  email_notifications : Bool
  subscriptions : List AlertSubscription
deriving Repr, DecidableEq

/-- The `severity_levels` dict in `get_eligible_users`. -/
def severity_levels : List (String × Nat) :=
  [("low", 1), ("medium", 2), ("high", 3), ("critical", 4)]

/-- `severity_levels.get(incident.severity, 2)`. -/
def severityLevel (severity : String) : Nat :=
  (severity_levels.lookup severity).getD 2

/-- A persisted `models.Incident` row. `id` is the engine-assigned key;
timestamps are in seconds. -/
structure Incident where
  id : Nat
  title : String
  description : String
  source : String
  location : String
  severity : String
  category : String
  url : Option String
  raw_data : Option String
  ai_summary : Option String
  relevance_score : Rat
  is_verified : Bool
  created_at : Int
  updated_at : Int
deriving Repr, DecidableEq

/-- The symmetric location match in `get_eligible_users`:
`user.location.lower() in incident.location.lower() or
incident.location.lower() in user.location.lower()`. -/
def locationMatch (userLoc incidentLoc : String) : Bool :=
  strContains incidentLoc.toLower userLoc.toLower
    || strContains userLoc.toLower incidentLoc.toLower

/-- `NotificationAgent.get_eligible_users`: query the opted-in users, keep
those whose location matches symmetrically as a substring and for which the
incident's severity ordinal (defaulting to 2) passes the hardcoded floor of
2. -/
def get_eligible_users (users : List User) (incident : Incident) : List User :=
  (users.filter (fun u => u.email_notifications)).filter (fun u =>
    locationMatch u.location incident.location
      && decide (2 ≤ severityLevel incident.severity))

/-- Outcome of one `email_service.send_alert_email(user, incident)` call:
it returns a boolean or raises. -/
inductive EmailOutcome where
  | returns (success : Bool)
  | throws (msg : String)
deriving Repr, DecidableEq

/-- A `models.NotificationLog` row. -/
structure NotificationLog where
  incident_id : Nat
  user_id : Nat
  notification_type : String
  status : String
  error_message : Option String
deriving Repr, DecidableEq

/-- The per-user body of `NotificationAgent.send_notifications`: skip users
without `email_notifications`; otherwise attempt the email and append one
log row whether the transport returns `True`, returns `False`, or raises. -/
def sendOne (transport : User → EmailOutcome) (incident : Incident) (u : User) :
    Option NotificationLog :=
  if u.email_notifications then
    match transport u with
    | .returns success =>
        some { incident_id := incident.id
               user_id := u.id
               notification_type := "email"
               status := if success then "sent" else "failed"
               error_message := if success then none else some "Email sending failed" }
    | .throws msg =>
        some { incident_id := incident.id
               user_id := u.id
               notification_type := "email"
               status := "failed"
               error_message := some msg }
  else none

/-- `NotificationAgent.send_notifications`: the list of log rows added to
the session during one batch over the eligible users. -/
def send_notifications (transport : User → EmailOutcome) (users : List User)
    (incident : Incident) : List NotificationLog :=
  (get_eligible_users users incident).filterMap (sendOne transport incident)

/-- The 24h dedup lookup predicate of
`NotificationAgent.save_analyzed_incident`:
same title and source, created within the last 24 hours. -/
def matchesAnalyzed (title source : String) (now : Int) (i : Incident) : Bool :=
  i.title == title && i.source == source && decide (now - 24 * 3600 ≤ i.created_at)

/-- The update branch of `save_analyzed_incident`: overwrite the
analysis-derived fields and bump `updated_at`. -/
def updateAnalyzed (now : Int) (a : IncidentAnalysis) (i : Incident) : Incident :=
  { i with ai_summary := some a.summary
           relevance_score := a.relevance_score
           severity := a.severity
           category := a.category
           is_verified := a.is_credible
           updated_at := now }

/-- The insert branch of `save_analyzed_incident`: a fresh row from the
normalized incident and the analysis, with default timestamps `now`. -/
def newAnalyzedIncident (newId : Nat) (now : Int) (d : IncidentData) (a : IncidentAnalysis) :
    Incident :=
  { id := newId
    title := d.title
    description := d.description
    source := d.source
    location := d.location
    severity := a.severity
    category := a.category
    url := d.url
    raw_data := d.raw_data
    ai_summary := some a.summary
    relevance_score := a.relevance_score
    is_verified := a.is_credible
    created_at := now
    updated_at := now }

/-- `NotificationAgent.save_analyzed_incident` acting on the incident
table: update the first row matching (title, source) within the last 24
hours, or append a fresh row (`newId` stands for the engine-assigned key). -/
def save_analyzed_incident (newId : Nat) (now : Int) (d : IncidentData) (a : IncidentAnalysis) :
    List Incident → List Incident
  | [] => [newAnalyzedIncident newId now d a]
  | i :: rest =>
      if matchesAnalyzed d.title d.source now i then updateAnalyzed now a i :: rest
      else i :: save_analyzed_incident newId now d a rest

/-- The unbounded dedup lookup predicate of `DataAgent.save_incident`:
same title and source, with no time bound. -/
def matchesRaw (title source : String) (i : Incident) : Bool :=
  i.title == title && i.source == source

/-- The update branch of `DataAgent.save_incident`: bump `updated_at` and,
when an analysis is supplied, overwrite the analysis-derived fields. -/
def updateRaw (now : Int) (analysis : Option IncidentAnalysis) (i : Incident) : Incident :=
  match analysis with
  | some a =>
      { i with updated_at := now
               ai_summary := some a.summary
               relevance_score := a.relevance_score
               severity := a.severity
               category := a.category
               is_verified := a.is_credible }
  | none => { i with updated_at := now }

/-- The insert branch of `DataAgent.save_incident`: a fresh row with the
model defaults (severity "medium", relevance 0.0, unverified) overridden by
the analysis when one is supplied. -/
def newRawIncident (newId : Nat) (now : Int) (d : IncidentData)
    (analysis : Option IncidentAnalysis) : Incident :=
  let base : Incident :=
    { id := newId
      title := d.title
      description := d.description
      source := d.source
      location := d.location
      severity := "medium"
      category := d.category
      url := d.url
      raw_data := d.raw_data
      ai_summary := none
      relevance_score := 0
      is_verified := false
      created_at := now
      updated_at := now }
  match analysis with
  | some a =>
      { base with ai_summary := some a.summary
                  relevance_score := a.relevance_score
                  severity := a.severity
                  category := a.category
                  is_verified := a.is_credible }
  | none => base

/-- `DataAgent.save_incident` acting on the incident table: update the
first row matching (title, source) — no time bound — or append a fresh
row. -/
def save_incident (newId : Nat) (now : Int) (d : IncidentData)
    (analysis : Option IncidentAnalysis) : List Incident → List Incident
  | [] => [newRawIncident newId now d analysis]
  | i :: rest =>
      if matchesRaw d.title d.source i then updateRaw now analysis i :: rest
      else i :: save_incident newId now d analysis rest

/-- A news-provider article as consumed by `fetch_news_data` (`raw` stands
for its JSON serialization, stored opaquely in `raw_data`). -/
structure Article where
  title : Option String
  description : Option String
  url : Option String
  raw : String
deriving Repr, DecidableEq

/-- The article filter of `fetch_news_data`: keep articles with a truthy
title and description whose title does not contain `"[Removed]"`. -/
def articleOk (a : Article) : Bool :=
  truthy a.title && truthy a.description
    && !(strContains (a.title.getD "") "[Removed]")

/-- The normalized incident `fetch_news_data` builds from an article. -/
def articleToIncident (location : String) (a : Article) : IncidentData :=
  { title := a.title.getD "News Alert"
    description := a.description.getD "Local news incident reported"
    source := "news"
    location := location
    category := "other"
    url := some (a.url.getD "")
    raw_data := some a.raw }

/-- The fixed keyword candidate list of `fetch_news_data`. -/
def keywords : List String :=
  ["accident", "emergency", "police", "fire", "traffic", "closure",
   "incident", "alert", "warning"]

/-- The query parameters `fetch_news_data` sends for one keyword. -/
structure NewsParams where
  q : String
  language : String
  sortBy : String
  pageSize : Nat
  fromDate : String
deriving Repr, DecidableEq

/-- The parameter dict of `fetch_news_data` for one keyword. -/
def newsParams (keyword location today : String) : NewsParams :=
  { q := keyword ++ " AND " ++ location
    language := "en"
    sortBy := "publishedAt"
    pageSize := 5
    fromDate := today }

/-- The inner article loop of `fetch_news_data`: skip articles without a
truthy title or description, skip titles containing `"[Removed]"`, and turn
the rest into normalized incidents in order. -/
def processArticles (location : String) : List Article → List IncidentData
  | [] => []
  | a :: rest =>
      if !(truthy a.title) || !(truthy a.description) then processArticles location rest
      else if strContains (a.title.getD "") "[Removed]" then processArticles location rest
      else articleToIncident location a :: processArticles location rest

/-- `DataAgent.fetch_news_data`: one provider query per keyword among the
first 3 of the candidate list (`keywords[:3]`), concatenating the
normalized incidents from each response. -/
def fetch_news_data (responses : String → List Article) (location : String) :
    List IncidentData :=
  (keywords.take 3).flatMap (fun kw => processArticles location (responses kw))

/-! ## Theorems -/

/-- C3: if the LLM call inside `analyze_incident` throws, or yields an
empty or invalid response, `analyze_incident` never raises (it is total)
and returns exactly the fallback verdict: relevance 0.5, severity
"medium", category "other", credible, and summary `title ++ ": " ++`
the first 100 characters of the description `++ "..."`. -/
theorem c3_analyze_incident_fallback (title description source location : String) :
    analyze_incident .empty title description source location =
      { relevance_score := 1/2
        severity := "medium"
        category := "other"
        is_credible := true
        summary := title ++ ": " ++ description.take 100 ++ "..." } ∧
    analyze_incident .malformed title description source location =
      analyze_incident .empty title description source location ∧
    analyze_incident .throws title description source location =
      analyze_incident .empty title description source location :=
  ⟨rfl, rfl, rfl⟩

/-- C4: if the independent credibility check returns false the effective
verdict is the primary verdict with `is_credible := false` and the
relevance score halved; if it returns true the primary verdict is used
unchanged. -/
theorem c4_credibility_override (a : IncidentAnalysis) :
    effectiveAnalysis a false =
      { a with is_credible := false
               relevance_score := a.relevance_score * (1/2) } ∧
    effectiveAnalysis a true = a :=
  ⟨rfl, rfl⟩

/-- C2: in the per-incident body of `process_incidents`, the incident is
persisted exactly when the effective analysis has relevance ≥ 0.3 and is
credible, and an incident is dispatched only if it is persisted (so one
failing the gate is dropped without being saved or dispatched). -/
theorem c2_persistence_gate (aLLM : AnalysisLLM) (cLLM : CredibilityLLM) (d : IncidentData) :
    ((processOne aLLM cLLM d).saved = true ↔
      ((3:Rat)/10 ≤ (processOne aLLM cLLM d).effective.relevance_score ∧
        (processOne aLLM cLLM d).effective.is_credible = true)) ∧
    (processOne aLLM cLLM d).dispatched =
      ((processOne aLLM cLLM d).saved && (processOne aLLM cLLM d).dispatched) := by
  simp only [processOne]
  split
  case isTrue h =>
    simp only [storeGate, Bool.and_eq_true, decide_eq_true_eq] at h
    simp [h]
  case isFalse h =>
    simp only [storeGate, Bool.and_eq_true, decide_eq_true_eq] at h
    simpa using h

/-- C1 counterexample: an incident whose primary verdict has severity
"high" and relevance 0.8 but `is_credible = false` (the independent filter
raising, hence defaulting to true and leaving the verdict unchanged) has
the claimed dispatch conditions — severity in {high, critical} and
relevance ≥ 0.7 — yet triggers no dispatch, because the outer persistence
gate requires credibility. -/
theorem c1_dispatch_gate_counterexample :
    (processOne
        (.valid { relevance_score := 8/10, severity := "high", category := "crime",
                  is_credible := false, summary := "s" })
        .throws
        { title := "t", description := "d", source := "news", location := "New York",
          category := "other", url := none, raw_data := none }).effective.severity = "high" ∧
    (7:Rat)/10 ≤
      (processOne
        (.valid { relevance_score := 8/10, severity := "high", category := "crime",
                  is_credible := false, summary := "s" })
        .throws
        { title := "t", description := "d", source := "news", location := "New York",
          category := "other", url := none, raw_data := none }).effective.relevance_score ∧
    (processOne
        (.valid { relevance_score := 8/10, severity := "high", category := "crime",
                  is_credible := false, summary := "s" })
        .throws
        { title := "t", description := "d", source := "news", location := "New York",
          category := "other", url := none, raw_data := none }).dispatched = false := by
  refine ⟨?_, ?_, ?_⟩ <;>
    norm_num [processOne, analyze_incident, filter_credible_sources, effectiveAnalysis,
      storeGate]

/-- C1 (amended): dispatch is triggered exactly when the effective analysis
is credible (hence passes the persistence gate, relevance ≥ 0.3 being
implied by ≥ 0.7), its severity is "high" or "critical", and its relevance
score is ≥ 0.7. -/
theorem c1_dispatch_gate (aLLM : AnalysisLLM) (cLLM : CredibilityLLM) (d : IncidentData) :
    (processOne aLLM cLLM d).dispatched = true ↔
      ((processOne aLLM cLLM d).effective.is_credible = true ∧
        ((processOne aLLM cLLM d).effective.severity = "high" ∨
          (processOne aLLM cLLM d).effective.severity = "critical") ∧
        (7:Rat)/10 ≤ (processOne aLLM cLLM d).effective.relevance_score) := by
  simp only [processOne]
  split
  case isTrue h =>
    simp only [storeGate, Bool.and_eq_true, decide_eq_true_eq] at h
    simp [dispatchGate, h.2]
  case isFalse h =>
    simp only [storeGate, Bool.and_eq_true, decide_eq_true_eq] at h
    constructor
    · intro hfalse
      exact absurd hfalse (by simp)
    · rintro ⟨hc, _, hr⟩
      exact absurd ⟨by linarith, hc⟩ h

/-- C5: `get_eligible_users` selects exactly the users with email
notifications enabled whose lowercased location is a substring of the
lowercased incident location or vice versa and for which the incident's
severity ordinal is at least 2; and the selection is independent of the
per-subscriber stored subscription preferences (changing every user's
subscription rows commutes with the selection). -/
theorem c5_eligible_users (users : List User) (incident : Incident) :
    (∀ u : User, u ∈ get_eligible_users users incident ↔
      (u ∈ users ∧ u.email_notifications = true ∧
        (strContains incident.location.toLower u.location.toLower = true ∨
          strContains u.location.toLower incident.location.toLower = true) ∧
        2 ≤ severityLevel incident.severity)) ∧
    (∀ f : User → List AlertSubscription,
      get_eligible_users (users.map (fun u => { u with subscriptions := f u })) incident =
        (get_eligible_users users incident).map (fun u => { u with subscriptions := f u })) := by
  constructor
  · intro u
    simp only [get_eligible_users, List.mem_filter, locationMatch, Bool.and_eq_true,
      Bool.or_eq_true, decide_eq_true_eq]
    tauto
  · intro f
    simp only [get_eligible_users]
    rw [List.filter_map, List.filter_map]
    rfl

/-- C10: an incident whose severity string is none of "low", "medium",
"high", "critical" gets the default ordinal 2 in `get_eligible_users`, so
it passes the hardcoded floor and every opted-in, location-matched user is
selected as eligible for it. -/
theorem c10_unknown_severity_default (s : String)
    (h1 : s ≠ "low") (h2 : s ≠ "medium") (h3 : s ≠ "high") (h4 : s ≠ "critical") :
    severityLevel s = 2 ∧
    ∀ (users : List User) (incident : Incident), incident.severity = s →
      ∀ u : User, u ∈ get_eligible_users users incident ↔
        (u ∈ users ∧ u.email_notifications = true ∧
          locationMatch u.location incident.location = true) := by
  have e1 : (s == "low") = false := by simp [h1]
  have e2 : (s == "medium") = false := by simp [h2]
  have e3 : (s == "high") = false := by simp [h3]
  have e4 : (s == "critical") = false := by simp [h4]
  have hlevel : severityLevel s = 2 := by
    simp [severityLevel, severity_levels, List.lookup, e1, e2, e3, e4]
  refine ⟨hlevel, ?_⟩
  intro users incident hsev u
  simp only [get_eligible_users, List.mem_filter, Bool.and_eq_true, decide_eq_true_eq,
    hsev, hlevel]
  tauto

/-- C10 witness: the unrecognized severity string "severe" is assigned the
ordinal 2 and every opted-in, location-matched user is eligible for an
incident carrying it. -/
theorem c10_unknown_severity_default_witness :
    severityLevel "severe" = 2 ∧
    ∀ (users : List User) (incident : Incident), incident.severity = "severe" →
      ∀ u : User, u ∈ get_eligible_users users incident ↔
        (u ∈ users ∧ u.email_notifications = true ∧
          locationMatch u.location incident.location = true) :=
  c10_unknown_severity_default "severe" (by decide) (by decide) (by decide) (by decide)

/-- The log row `send_notifications` appends for one dispatch attempt,
as a function of the transport's outcome: status "sent" when the transport
returns true, "failed" otherwise, with an error text on failure. -/
def attemptLog (transport : User → EmailOutcome) (incident : Incident) (u : User) :
    NotificationLog :=
  match transport u with
  | .returns success =>
      { incident_id := incident.id
        user_id := u.id
        notification_type := "email"
        status := if success then "sent" else "failed"
        error_message := if success then none else some "Email sending failed" }
  | .throws msg =>
      { incident_id := incident.id
        user_id := u.id
        notification_type := "email"
        status := "failed"
        error_message := some msg }

/-- For an opted-in user, the per-user body of `send_notifications` always
produces exactly one log row, namely `attemptLog`. -/
lemma sendOne_opted_in (transport : User → EmailOutcome) (incident : Incident) (u : User)
    (h : u.email_notifications = true) :
    sendOne transport incident u = some (attemptLog transport incident u) := by
  simp only [sendOne, attemptLog, h, if_true]
  cases transport u <;> rfl

/-- Over a list of opted-in users, the logging of `send_notifications`
drops nobody. -/
lemma filterMap_sendOne (transport : User → EmailOutcome) (incident : Incident) :
    ∀ l : List User, (∀ u ∈ l, u.email_notifications = true) →
      l.filterMap (sendOne transport incident) = l.map (attemptLog transport incident)
  | [], _ => rfl
  | u :: rest, h => by
      have hu : u.email_notifications = true := h u (List.mem_cons_self u rest)
      have hrest := filterMap_sendOne transport incident rest
        (fun v hv => h v (List.mem_cons_of_mem u hv))
      simp [List.filterMap_cons, sendOne_opted_in transport incident u hu, hrest]

/-- C8: one `send_notifications` batch appends exactly one log row per
eligible subscriber — whether the transport returns true, returns false,
or raises — with status "sent" exactly on a true return and an error
message otherwise, and one subscriber's outcome never suppresses the
remaining subscribers' attempts (the batch is the full map over the
eligible list). -/
theorem c8_notification_logging (transport : User → EmailOutcome) (users : List User)
    (incident : Incident) :
    send_notifications transport users incident =
      (get_eligible_users users incident).map (attemptLog transport incident) ∧
    (send_notifications transport users incident).length =
      (get_eligible_users users incident).length ∧
    ∀ u : User,
      ((attemptLog transport incident u).status =
          if transport u = .returns true then "sent" else "failed") ∧
      ((attemptLog transport incident u).error_message = none ↔
          transport u = .returns true) := by
  have hmap : send_notifications transport users incident =
      (get_eligible_users users incident).map (attemptLog transport incident) := by
    unfold send_notifications
    apply filterMap_sendOne
    intro u hu
    exact (List.mem_filter.mp (List.mem_filter.mp hu).1).2
  refine ⟨hmap, by rw [hmap, List.length_map], ?_⟩
  intro u
  constructor
  · cases htr : transport u with
    | returns success => cases success <;> simp [attemptLog, htr]
    | throws msg => simp [attemptLog, htr]
  · cases htr : transport u with
    | returns success => cases success <;> simp [attemptLog, htr]
    | throws msg => simp [attemptLog, htr]

/-- When some row already matches (title, source), the raw save path of
`DataAgent.save_incident` updates in place and adds no row. -/
lemma save_incident_length_of_match (newId : Nat) (now : Int) (d : IncidentData)
    (analysis : Option IncidentAnalysis) :
    ∀ db : List Incident, db.any (matchesRaw d.title d.source) = true →
      (save_incident newId now d analysis db).length = db.length
  | [], h => by simp at h
  | i :: rest, h => by
      by_cases hm : matchesRaw d.title d.source i = true
      · simp [save_incident, hm]
      · have hrest : rest.any (matchesRaw d.title d.source) = true := by
          simpa [List.any_cons, hm] using h
        simp [save_incident, hm,
          save_incident_length_of_match newId now d analysis rest hrest]

/-- A row that fails the unbounded (title, source) match, or whose
`created_at` lies outside the 24-hour window, fails the windowed match of
`save_analyzed_incident`. -/
lemma matchesAnalyzed_eq_false (t s : String) (now : Int) (i : Incident)
    (h : matchesRaw t s i = true → i.created_at < now - 24 * 3600) :
    matchesAnalyzed t s now i = false := by
  by_cases hm : matchesRaw t s i = true
  · have hlt : ¬ (now - 24 * 3600 ≤ i.created_at) := not_le.mpr (h hm)
    simp only [matchesRaw, Bool.and_eq_true, beq_iff_eq] at hm
    simp [matchesAnalyzed, hm.1, hm.2]
    omega
  · cases h1 : (i.title == t) <;> cases h2 : (i.source == s) <;>
      simp_all [matchesRaw, matchesAnalyzed]

/-- When no row passes the windowed match, `save_analyzed_incident`
appends a fresh row at the end of the table. -/
lemma save_analyzed_append (newId : Nat) (now : Int) (d : IncidentData) (a : IncidentAnalysis) :
    ∀ db : List Incident, (∀ i ∈ db, matchesAnalyzed d.title d.source now i = false) →
      save_analyzed_incident newId now d a db = db ++ [newAnalyzedIncident newId now d a]
  | [], _ => rfl
  | i :: rest, h => by
      have hi : matchesAnalyzed d.title d.source now i = false :=
        h i (List.mem_cons_self i rest)
      have hrest := save_analyzed_append newId now d a rest
        (fun j hj => h j (List.mem_cons_of_mem i hj))
      simp [save_analyzed_incident, hi, hrest]

/-- When the only row passing the windowed match sits at the end of the
table, `save_analyzed_incident` overwrites that row in place. -/
lemma save_analyzed_update (newId : Nat) (now : Int) (d : IncidentData) (a : IncidentAnalysis)
    (j : Incident) (hj : matchesAnalyzed d.title d.source now j = true) :
    ∀ db : List Incident, (∀ i ∈ db, matchesAnalyzed d.title d.source now i = false) →
      save_analyzed_incident newId now d a (db ++ [j]) = db ++ [updateAnalyzed now a j]
  | [], _ => by simp [save_analyzed_incident, hj]
  | i :: rest, h => by
      have hi : matchesAnalyzed d.title d.source now i = false :=
        h i (List.mem_cons_self i rest)
      have hrest := save_analyzed_update newId now d a j hj rest
        (fun k hk => h k (List.mem_cons_of_mem i hk))
      simp [save_analyzed_incident, hi, hrest]

/-- C6: the two save paths use different dedup lookups. When the table
holds a row with the same (title, source) but every such row was created
more than 24 hours before `now`, `DataAgent.save_incident` merges (row
count unchanged) while `NotificationAgent.save_analyzed_incident`
duplicates (row count grows by one). -/
theorem c6_dedup_windows (newId : Nat) (now : Int) (d : IncidentData) (a : IncidentAnalysis)
    (db : List Incident)
    (hmatch : db.any (matchesRaw d.title d.source) = true)
    (hstale : ∀ i ∈ db, matchesRaw d.title d.source i = true →
      i.created_at < now - 24 * 3600) :
    (save_incident newId now d (some a) db).length = db.length ∧
    (save_analyzed_incident newId now d a db).length = db.length + 1 := by
  constructor
  · exact save_incident_length_of_match newId now d (some a) db hmatch
  · rw [save_analyzed_append newId now d a db
      (fun i hi => matchesAnalyzed_eq_false d.title d.source now i (hstale i hi))]
    simp

/-- The pre-existing table row used in the C6 witness: same title and
source as the incoming incident, created at time 0. -/
def staleRow : Incident :=
  { id := 1, title := "Weather Alert: Rain", description := "old", source := "weather",
    location := "New York", severity := "medium", category := "weather", url := none,
    raw_data := none, ai_summary := none, relevance_score := 0, is_verified := false,
    created_at := 0, updated_at := 0 }

/-- The incoming incident of the C6 witness. -/
def rainData : IncidentData :=
  { title := "Weather Alert: Rain", description := "new", source := "weather",
    location := "New York", category := "weather", url := none, raw_data := none }

/-- The analysis of the C6 witness. -/
def rainAnalysis : IncidentAnalysis :=
  { relevance_score := 0, severity := "high", category := "weather",
    is_credible := true, summary := "s" }

/-- C6 witness: a table holding one row titled "Weather Alert: Rain" from
source "weather" created at time 0 is merged into by the raw save path and
duplicated by the analyzed save path at time 200000 (more than 24 hours
later). -/
theorem c6_dedup_windows_witness :
    ([staleRow].any (matchesRaw rainData.title rainData.source) = true) ∧
    (∀ i ∈ [staleRow], matchesRaw rainData.title rainData.source i = true →
      i.created_at < 200000 - 24 * 3600) ∧
    ((save_incident 2 200000 rainData (some rainAnalysis) [staleRow]).length = 1 ∧
      (save_analyzed_incident 2 200000 rainData rainAnalysis [staleRow]).length = 1 + 1) :=
  ⟨by decide, by decide,
    c6_dedup_windows 2 200000 rainData rainAnalysis [staleRow] (by decide) (by decide)⟩
/-- C7: calling `save_analyzed_incident` twice with the same (title,
source) within the 24-hour window, starting from a table with no row of
that (title, source), creates exactly one row: the second call overwrites
only the analysis-derived fields and the updated timestamp of the row the
first call inserted, leaving title, description, source, location, url,
raw_data (and the creation timestamp) from the first call, and adds no new
row. -/
theorem c7_idempotent_upsert (id1 id2 : Nat) (now1 now2 : Int) (d1 d2 : IncidentData)
    (a1 a2 : IncidentAnalysis) (db : List Incident)
    (ht : d2.title = d1.title) (hs : d2.source = d1.source)
    (hclean : ∀ i ∈ db, matchesRaw d1.title d1.source i = false)
    (hwin : now2 - 24 * 3600 ≤ now1) :
    save_analyzed_incident id2 now2 d2 a2 (save_analyzed_incident id1 now1 d1 a1 db) =
      db ++ [{ id := id1
               title := d1.title
               description := d1.description
               source := d1.source
               location := d1.location
               severity := a2.severity
               category := a2.category
               url := d1.url
               raw_data := d1.raw_data
               ai_summary := some a2.summary
               relevance_score := a2.relevance_score
               is_verified := a2.is_credible
               created_at := now1
               updated_at := now2 }] ∧
    (save_analyzed_incident id2 now2 d2 a2
      (save_analyzed_incident id1 now1 d1 a1 db)).length = db.length + 1 := by
  have noMatch : ∀ (now : Int) (t s : String), t = d1.title → s = d1.source →
      ∀ i ∈ db, matchesAnalyzed t s now i = false := by
    intro now t s et es i hi
    subst et es
    exact matchesAnalyzed_eq_false d1.title d1.source now i
      (fun hm => absurd hm (by simp [hclean i hi]))
  have step1 : save_analyzed_incident id1 now1 d1 a1 db =
      db ++ [newAnalyzedIncident id1 now1 d1 a1] :=
    save_analyzed_append id1 now1 d1 a1 db (noMatch now1 d1.title d1.source rfl rfl)
  have hj : matchesAnalyzed d2.title d2.source now2 (newAnalyzedIncident id1 now1 d1 a1) =
      true := by
    simp [matchesAnalyzed, newAnalyzedIncident, ht, hs]
    omega
  have step2 : save_analyzed_incident id2 now2 d2 a2
      (db ++ [newAnalyzedIncident id1 now1 d1 a1]) =
      db ++ [updateAnalyzed now2 a2 (newAnalyzedIncident id1 now1 d1 a1)] :=
    save_analyzed_update id2 now2 d2 a2 (newAnalyzedIncident id1 now1 d1 a1) hj db
      (noMatch now2 d2.title d2.source ht hs)
  rw [step1, step2]
  constructor
  · rfl
  · simp

/-- The incoming incident of the C7 witness. -/
def floodData : IncidentData :=
  { title := "Weather Alert: Flood", description := "rising water", source := "weather",
    location := "New York", category := "weather", url := none, raw_data := none }

/-- The first analysis of the C7 witness. -/
def floodAnalysis1 : IncidentAnalysis :=
  { relevance_score := 1/2, severity := "medium", category := "weather",
    is_credible := true, summary := "first" }

/-- The second analysis of the C7 witness. -/
def floodAnalysis2 : IncidentAnalysis :=
  { relevance_score := 9/10, severity := "critical", category := "weather",
    is_credible := true, summary := "second" }

/-- C7 witness: saving the flood incident at time 0 and again at time 1000
(within 24 hours) into an empty table yields exactly one row, carrying the
first call's normalized fields and creation time and the second call's
analysis fields and update time. -/
theorem c7_idempotent_upsert_witness :
    (floodData.title = floodData.title) ∧
    (floodData.source = floodData.source) ∧
    (∀ i ∈ ([] : List Incident), matchesRaw floodData.title floodData.source i = false) ∧
    ((1000:Int) - 24 * 3600 ≤ 0) ∧
    (save_analyzed_incident 2 1000 floodData floodAnalysis2
        (save_analyzed_incident 1 0 floodData floodAnalysis1 []) =
      [] ++ [{ id := 1
               title := floodData.title
               description := floodData.description
               source := floodData.source
               location := floodData.location
               severity := floodAnalysis2.severity
               category := floodAnalysis2.category
               url := floodData.url
               raw_data := floodData.raw_data
               ai_summary := some floodAnalysis2.summary
               relevance_score := floodAnalysis2.relevance_score
               is_verified := floodAnalysis2.is_credible
               created_at := 0
               updated_at := 1000 }] ∧
      (save_analyzed_incident 2 1000 floodData floodAnalysis2
        (save_analyzed_incident 1 0 floodData floodAnalysis1 [])).length =
        ([] : List Incident).length + 1) :=
  ⟨rfl, rfl, by decide, by decide,
    c7_idempotent_upsert 1 2 0 1000 floodData floodData floodAnalysis1 floodAnalysis2 []
      rfl rfl (by decide) (by decide)⟩

/-- The inner article loop of `fetch_news_data` keeps exactly the articles
passing `articleOk`, in order, each normalized by `articleToIncident`. -/
lemma processArticles_eq_filter (location : String) :
    ∀ l : List Article,
      processArticles location l = (l.filter articleOk).map (articleToIncident location)
  | [] => rfl
  | a :: rest => by
      have ih := processArticles_eq_filter location rest
      cases h1 : truthy a.title <;> cases h2 : truthy a.description <;>
        cases h3 : strContains (a.title.getD "") "[Removed]" <;>
        simp [processArticles, articleOk, h1, h2, h3, ih, List.filter_cons]

/-- C9: `fetch_news_data` includes exactly the articles of the first 3
keywords' responses that have a truthy title and description and no
"[Removed]" marker in the title; the first 3 keywords are "accident",
"emergency", "police"; every per-keyword request asks the provider for at
most `pageSize = 5` articles, and the per-keyword contribution never
exceeds the size of the provider's response. -/
theorem c9_news_extraction (responses : String → List Article) (location : String) :
    fetch_news_data responses location =
      (keywords.take 3).flatMap (fun kw =>
        ((responses kw).filter articleOk).map (articleToIncident location)) ∧
    keywords.take 3 = ["accident", "emergency", "police"] ∧
    (∀ keyword today : String, (newsParams keyword location today).pageSize = 5) ∧
    (∀ kw : String,
      (processArticles location (responses kw)).length ≤ (responses kw).length) := by
  refine ⟨?_, by decide, fun keyword today => rfl, ?_⟩
  · simp only [fetch_news_data, processArticles_eq_filter]
  · intro kw
    rw [processArticles_eq_filter, List.length_map]
    exact List.length_filter_le _ _
